import Mathlib

/-!
Verification of the Driplytics ensemble price-prediction engine
(`ml_service/ensemble_price_predictor.py`), together with the signal
adapters it consumes (`live_data_collector.py`, `time_series.py`).

The arithmetic of the fusion core is embedded over `ℚ` (the Python code
computes with floats; all claims are about exact arithmetic relationships,
so rationals model them faithfully).  The overall-confidence computation
involves a square root (`np.std`), so it is embedded over `ℝ`.
The 2-decimal display rounding that Python applies to reported fields
(`round(x, 2)`) is presentation only and is not modelled.
-/

namespace Driplytics

/-- One price-bearing prediction, as built by `predict_with_ml_models`
(the per-model dicts with keys `predicted_price`, `weight`, `confidence`)
and by the Prophet branch of `calculate_ensemble_prediction`. -/
structure SignalSource where
  predicted_price : ℚ
  weight : ℚ
  confidence : ℚ
deriving DecidableEq

/-- Raw outputs of the loaded regression models (`None` = model not
loaded), as consumed by `predict_with_ml_models`.  `random_forest` and
`gradient_boosting` carry `self.models[...].predict(features)[0]`;
`ridge_regression` and `linear_regression` carry the prediction on the
scaled features. -/
structure MLOutputs where
  random_forest : Option ℚ
  gradient_boosting : Option ℚ
  ridge_regression : Option ℚ
  linear_regression : Option ℚ
deriving DecidableEq

/-- `EnsemblePricePredictor.predict_with_ml_models` (lines 131-185):
random forest (confidence 0.93, weight 0.35) and gradient boosting
(0.91, 0.30) are emitted whenever loaded, with price clamped by
`max(0, pred)`; ridge (0.75, 0.10) and linear (0.72, 0.05) are emitted
only when `pred > 0 and pred < retail_price * 5`.  `retail_est` is
`features[0][2]`, i.e. the retail price. -/
def predict_with_ml_models (o : MLOutputs) (retail_price : ℚ) : List SignalSource :=
  (match o.random_forest with
   | some rf_pred => [⟨max 0 rf_pred, 0.35, 0.93⟩]
   | none => []) ++
  (match o.gradient_boosting with
   | some gb_pred => [⟨max 0 gb_pred, 0.30, 0.91⟩]
   | none => []) ++
  (match o.ridge_regression with
   | some ridge_pred =>
       if 0 < ridge_pred ∧ ridge_pred < retail_price * 5 then
         [⟨max 0 ridge_pred, 0.10, 0.75⟩]
       else []
   | none => []) ++
  (match o.linear_regression with
   | some lr_pred =>
       if 0 < lr_pred ∧ lr_pred < retail_price * 5 then
         [⟨max 0 lr_pred, 0.05, 0.72⟩]
       else []
   | none => [])

/-- One point of the forecast curve returned by
`time_series.get_sneaker_price_history` (keys `predicted_price`,
`lower_bound`, `upper_bound`). -/
structure ForecastPoint where
  predicted_price : ℚ
  lower_bound : ℚ
  upper_bound : ℚ
deriving DecidableEq

/-- The history result consumed by `predict_with_prophet`:
`success`, the `forecast` list, and `history.data_points`. -/
structure HistoryResult where
  success : Bool
  forecast : List ForecastPoint
  data_points : ℕ
deriving DecidableEq

/-- The dict returned by `EnsemblePricePredictor.predict_with_prophet`
(lines 187-214). -/
structure ProphetPrediction where
  predicted_price_7d : Option ℚ
  predicted_price_14d : Option ℚ
  predicted_price_30d : Option ℚ
  lower_bound : Option ℚ
  upper_bound : Option ℚ
  confidence : ℚ
  weight : ℚ
  historical_data_points : ℕ
deriving DecidableEq

/-- `EnsemblePricePredictor.predict_with_prophet` (lines 187-214): when the
sneaker name is non-empty and the history call succeeded with a non-empty
forecast, the 7/14-day points are read at indices 6 and 13 (when present),
the 30-day point is `forecast[-1]`, and confidence / weight are the fixed
constants 0.85 / 0.20; otherwise `None`. -/
def predict_with_prophet (sneaker_name : String) (h : HistoryResult) :
    Option ProphetPrediction :=
  if sneaker_name = "" then none
  else if h.success ∧ h.forecast ≠ [] then
    some
      { predicted_price_7d := (h.forecast[6]?).map ForecastPoint.predicted_price
        predicted_price_14d := (h.forecast[13]?).map ForecastPoint.predicted_price
        predicted_price_30d := h.forecast.getLast?.map ForecastPoint.predicted_price
        lower_bound := h.forecast.getLast?.map ForecastPoint.lower_bound
        upper_bound := h.forecast.getLast?.map ForecastPoint.upper_bound
        confidence := 0.85
        weight := 0.20
        historical_data_points := h.data_points }
  else none

/-- The effective weight `weight * confidence` used by
`calculate_ensemble_prediction` when accumulating `all_predictions`. -/
def effective_weight (s : SignalSource) : ℚ :=
  s.weight * s.confidence

/-- The Prophet contribution to `all_predictions` (lines 398-416): a single
price-bearing source built from `predicted_price_30d`, `weight` and
`confidence`, added iff a prophet result is present and its
`predicted_price_30d` is truthy (present and non-zero). -/
def prophet_price_source (prophet_prediction : Option ProphetPrediction) :
    List SignalSource :=
  match prophet_prediction with
  | some p =>
      match p.predicted_price_30d with
      | some price =>
          if price ≠ 0 then [⟨price, p.weight, p.confidence⟩] else []
      | none => []
  | none => []

/-- The `all_predictions` list of `calculate_ensemble_prediction`
(lines 377-416): every ML model prediction, then the Prophet source when
one survives. -/
def all_price_sources (ml_predictions : List SignalSource)
    (prophet_prediction : Option ProphetPrediction) : List SignalSource :=
  ml_predictions ++ prophet_price_source prophet_prediction

/-- `total_weight` accumulated in `calculate_ensemble_prediction`:
the sum of `weight * confidence` over the price-bearing sources. -/
def total_weight (srcs : List SignalSource) : ℚ :=
  (srcs.map effective_weight).sum

/-- The numerator `sum(p * w for p, w in all_predictions)` of the fused
estimate. -/
def weighted_price_sum (srcs : List SignalSource) : ℚ :=
  (srcs.map (fun s => s.predicted_price * effective_weight s)).sum

/-- The base ensemble price (lines 418-422): the confidence-weighted
average when `total_weight > 0`, else the fallback `retail_price * 1.1`. -/
def ensemble_price (srcs : List SignalSource) (retail_price : ℚ) : ℚ :=
  if 0 < total_weight srcs then weighted_price_sum srcs / total_weight srcs
  else retail_price * 1.1

/-- The structured Groq LLM analysis consumed by
`calculate_ensemble_prediction` (`adjusted_price` and `confidence` read
with `.get`, hence optional). -/
structure GroqAnalysis where
  adjusted_price : Option ℚ
  confidence : Option ℚ
deriving DecidableEq

/-- Lines 424-437 of `calculate_ensemble_prediction`: the sentiment factor
multiplies the base estimate, then the trends factor multiplies the result;
when a Groq analysis is present with self-reported confidence above 0.6
(`.get('confidence', 0.5)`), the running estimate is replaced by the 90/10
blend with the LLM price (`.get('adjusted_price', final_price)`). -/
def final_price (ensemble_price : ℚ) (sentiment_factor trends_factor : ℚ)
    (groq_analysis : Option GroqAnalysis) : ℚ :=
  let sentiment_adjusted_price := ensemble_price * sentiment_factor
  let fp := sentiment_adjusted_price * trends_factor
  match groq_analysis with
  | none => fp
  | some g =>
      let llm_price := g.adjusted_price.getD fp
      let llm_confidence := g.confidence.getD 0.5
      if 0.6 < llm_confidence then fp * 0.9 + llm_price * 0.1 else fp

/-- `get_sentiment_adjustment` (lines 216-256), successful-analysis branch:
`adjustment_factor = 1.0 + sentiment_score * 0.10`, unclamped.
The score is `analysis.get('overall_sentiment', 0)`. -/
def get_sentiment_adjustment (sentiment_score : ℚ) : ℚ :=
  1 + sentiment_score * 0.10

/-- The neutral fallback factor returned by `get_sentiment_adjustment`
when no posts are found or the analysis raises. -/
def default_sentiment_adjustment : ℚ := 1.0

/-- Modelled from the spec: the repository calls
`LiveSentimentAnalyzer.analyze_sneaker`, which is absent from the source;
per the spec's data model the underlying basis is a "sentiment score in
[-1,1]" (and the in-repo per-text scorer `analyze_text` likewise produces
`(positive - negative) / total ∈ [-1, 1]`). -/
def sentiment_score_valid (s : ℚ) : Prop :=
  -1 ≤ s ∧ s ≤ 1

instance (s : ℚ) : Decidable (sentiment_score_valid s) :=
  inferInstanceAs (Decidable (_ ∧ _))

/-- `get_trends_adjustment` (lines 258-296), successful branch: the raw
factor moves by `(current - avg) / 200` for a rising trend and
`-(avg - current) / 200` for a falling one, then is clamped by
`min(1.2, max(0.8, factor))`. -/
def get_trends_adjustment (current_interest avg_interest : ℚ)
    (trend_direction : String) : ℚ :=
  let adjustment_factor :=
    if trend_direction = "rising" then
      1 + (current_interest - avg_interest) / 200
    else if trend_direction = "falling" then
      1 - (avg_interest - current_interest) / 200
    else 1
  min 1.2 (max 0.8 adjustment_factor)

/-- `price_change_pct` (lines 481-482). -/
def price_change_percent (fp retail_price : ℚ) : ℚ :=
  if 0 < retail_price then (fp - retail_price) / retail_price * 100 else 0

/-- The action tier computed by `get_recommendation` (lines 503-550);
each action is paired one-to-one with its description and risk level, so
the action string determines the whole tier. -/
def get_recommendation (price_change_pct : ℚ) : String :=
  if 75 < price_change_pct then "STRONG BUY"
  else if 40 < price_change_pct then "BUY"
  else if 15 < price_change_pct then "CONSIDER BUYING"
  else if 0 < price_change_pct then "HOLD"
  else if -15 < price_change_pct then "CAUTION"
  else "AVOID"

/-- The observable outcome of `predict_best_price`: the success flag, the
point estimate carried by the `prediction` object on success, and the
`error` string on failure. -/
structure PredictionOutcome where
  success : Bool
  best_predicted_price : Option ℚ
  error : Option String
deriving DecidableEq

/-- `EnsemblePricePredictor.predict_best_price` (lines 552-660), with the
already-collected external signals passed as parameters (their network
acquisition is outside the fusion arithmetic).  When models are not
loaded the call fails; otherwise the sentiment / trends factors are
replaced by the disabled dicts (factor 1.0, lines 593 and 600) when their
include flag is off, the Groq analysis is dropped when `include_groq` is
off, and the fused, adjusted price is returned with `success = True`. -/
def predict_best_price (loaded : Bool) (ml_predictions : List SignalSource)
    (prophet_prediction : Option ProphetPrediction)
    (include_sentiment include_trends include_groq : Bool)
    (sentiment_factor trends_factor : ℚ) (groq_analysis : Option GroqAnalysis)
    (retail_price : ℚ) : PredictionOutcome :=
  if ¬loaded then
    ⟨false, none, some "Models not loaded. Run train_model.py first."⟩
  else
    let sf := if include_sentiment then sentiment_factor else 1.0
    let tf := if include_trends then trends_factor else 1.0
    let g := if include_groq then groq_analysis else none
    let srcs := all_price_sources ml_predictions prophet_prediction
    ⟨true, some (final_price (ensemble_price srcs retail_price) sf tf g), none⟩

/-- `np.mean` over the candidate price list (real-valued model of the
float computation in lines 470-478). -/
noncomputable def np_mean (l : List ℝ) : ℝ :=
  l.sum / l.length

/-- `np.std` (population standard deviation, ddof = 0). -/
noncomputable def np_std (l : List ℝ) : ℝ :=
  Real.sqrt ((l.map (fun p => (p - np_mean l) ^ 2)).sum / l.length)

/-- `overall_confidence` (lines 473-478): with more than one candidate
price, `clamp(1 - std/mean, 0.6, 0.95)` written as
`max(0.6, min(0.95, 1 - cv))`; otherwise the fixed 0.80. -/
noncomputable def overall_confidence (predictions_list : List ℝ) : ℝ :=
  if 1 < predictions_list.length then
    max 0.6 (min 0.95 (1 - np_std predictions_list / np_mean predictions_list))
  else 0.80

/-- Claim C1: for every set of price-bearing sources the fusion forms
effective weights `weight * confidence`; when their sum is positive the base
estimate is the effective-weight-weighted average of the predicted prices,
and when the total weight is zero it is the neutral fallback
`retail_price * 1.1` (the function is total, so no error is raised). -/
theorem ensemble_price_fusion_spec (srcs : List SignalSource) (retail_price : ℚ) :
    total_weight srcs = (srcs.map fun s => s.weight * s.confidence).sum ∧
    (0 < total_weight srcs →
      ensemble_price srcs retail_price =
        (srcs.map fun s => s.predicted_price * (s.weight * s.confidence)).sum /
          total_weight srcs) ∧
    (total_weight srcs = 0 →
      ensemble_price srcs retail_price = retail_price * 1.1) := by
  refine ⟨rfl, fun h => ?_, fun h => ?_⟩
  · simp [ensemble_price, weighted_price_sum, effective_weight, h]
  · simp [ensemble_price, h]

/-- Witness for C1: a single price-bearing source (positive total weight
branch) and the empty source set (fallback branch). -/
theorem ensemble_price_fusion_spec_witness :
    (ensemble_price [⟨300, 0.35, 0.93⟩] 220 =
      ([(⟨300, 0.35, 0.93⟩ : SignalSource)].map fun s =>
        s.predicted_price * (s.weight * s.confidence)).sum /
        total_weight [⟨300, 0.35, 0.93⟩]) ∧
    ensemble_price [] 220 = 220 * 1.1 :=
  ⟨(ensemble_price_fusion_spec [⟨300, 0.35, 0.93⟩] 220).2.1
      (by norm_num [total_weight, effective_weight]),
   (ensemble_price_fusion_spec [] 220).2.2 rfl⟩

/-- Claim C2 counterexample: with models loaded, zero surviving regression
sources and no forecast, the request does not fail — it returns
`success = true` with the fallback estimate `220 * 1.1 = 242` and no error
(the code has no `NoComputablePrice` error kind at all). -/
theorem predict_no_sources_counterexample :
    predict_best_price true [] none true true true 1 1 none 220 =
      ⟨true, some 242, none⟩ := by
  norm_num [predict_best_price, all_price_sources, prophet_price_source,
    ensemble_price, total_weight, weighted_price_sum, final_price]

/-- Claim C2 (amended): when zero regression models survive and no
time-series forecast is available, the prediction request still succeeds:
for every sentiment and trends factor it returns `success = true` with the
adjusted fallback estimate built from `retail_price * 1.1`, and no error. -/
theorem predict_no_sources_succeeds (sentiment_factor trends_factor : ℚ)
    (retail_price : ℚ) :
    predict_best_price true [] none true true true sentiment_factor
        trends_factor none retail_price =
      ⟨true, some (retail_price * 1.1 * sentiment_factor * trends_factor),
        none⟩ := by
  simp [predict_best_price, all_price_sources, prophet_price_source,
    ensemble_price, total_weight, weighted_price_sum, final_price]

/-- Claim C6: adjustments are applied sequentially in the fixed order
sentiment, then trend (each a multiplier on the running estimate), then the
LLM blend, which replaces the running estimate by
`0.9 * running + 0.1 * llm_price` exactly when the self-reported LLM
confidence exceeds 0.6; the scenario 300 × 1.05 × 0.98 = 308.7 holds. -/
theorem final_price_sequential :
    (∀ ep sf tf : ℚ, final_price ep sf tf none = ep * sf * tf) ∧
    (∀ ep sf tf llm_price llm_confidence : ℚ, 0.6 < llm_confidence →
      final_price ep sf tf (some ⟨some llm_price, some llm_confidence⟩) =
        ep * sf * tf * 0.9 + llm_price * 0.1) ∧
    (∀ (ep sf tf llm_confidence : ℚ) (llm_price : Option ℚ),
      llm_confidence ≤ 0.6 →
      final_price ep sf tf (some ⟨llm_price, some llm_confidence⟩) =
        ep * sf * tf) ∧
    final_price 300 1.05 0.98 none = 308.7 := by
  refine ⟨fun ep sf tf => rfl, fun ep sf tf lp lc h => ?_,
    fun ep sf tf lc lp h => ?_, by norm_num [final_price]⟩
  · simp [final_price, h]
  · simp [final_price, not_lt.mpr h]

/-- Witness for C6: a confident LLM analysis (confidence 0.8 > 0.6) blends
90/10, and an unconfident one (0.5 ≤ 0.6) leaves the estimate unchanged. -/
theorem final_price_sequential_witness :
    final_price 100 1 1 (some ⟨some 200, some 0.8⟩) =
      100 * 1 * 1 * 0.9 + 200 * 0.1 ∧
    final_price 100 1 1 (some ⟨some 200, some 0.5⟩) = 100 * 1 * 1 :=
  ⟨final_price_sequential.2.1 100 1 1 200 0.8 (by norm_num),
   final_price_sequential.2.2.1 100 1 1 0.5 (some 200) (by norm_num)⟩

/-- Claim C10: disabling the optional signals is the identity on the fused
price: with `include_sentiment = include_trends = false` and the LLM
analysis absent (or ignored through `include_groq = false`), the factors
used are exactly 1.0, no blend occurs, and the returned point estimate
equals the base weighted ensemble estimate unchanged. -/
theorem disabled_signals_identity :
    (∀ (ml : List SignalSource) (prophet : Option ProphetPrediction)
        (sf tf : ℚ) (groq : Option GroqAnalysis) (retail : ℚ),
      predict_best_price true ml prophet false false false sf tf groq retail =
        ⟨true, some (ensemble_price (all_price_sources ml prophet) retail),
          none⟩) ∧
    (∀ (ml : List SignalSource) (prophet : Option ProphetPrediction)
        (sf tf : ℚ) (include_groq : Bool) (retail : ℚ),
      predict_best_price true ml prophet false false include_groq sf tf none
          retail =
        ⟨true, some (ensemble_price (all_price_sources ml prophet) retail),
          none⟩) := by
  refine ⟨fun ml prophet sf tf groq retail => ?_,
    fun ml prophet sf tf ig retail => ?_⟩
  · norm_num [predict_best_price, final_price]
  · cases ig <;> norm_num [predict_best_price, final_price]

/-- Claim C3 counterexample: the bands are not inclusive of their lower
bound — at the boundary value 75 the classifier (a strict `>` chain)
returns BUY, the band below, not STRONG BUY. -/
theorem recommendation_boundary_counterexample :
    get_recommendation 75 = "BUY" ∧ get_recommendation 75 ≠ "STRONG BUY" := by
  constructor <;> decide

/-- Claim C3 (amended): the classifier is a total function whose six tiers
partition the line into half-open bands exclusive of their lower bound and
inclusive of their upper bound — `(75,∞)`, `(40,75]`, `(15,40]`, `(0,15]`,
`(-15,0]`, `(-∞,-15]` — so every input maps to exactly one tier, and each
boundary value 75, 40, 15, 0, -15 resolves to the lower tier (the band of
which it is the upper, inclusive endpoint). -/
theorem get_recommendation_bands :
    (∀ x : ℚ,
      (get_recommendation x = "STRONG BUY" ↔ 75 < x) ∧
      (get_recommendation x = "BUY" ↔ 40 < x ∧ x ≤ 75) ∧
      (get_recommendation x = "CONSIDER BUYING" ↔ 15 < x ∧ x ≤ 40) ∧
      (get_recommendation x = "HOLD" ↔ 0 < x ∧ x ≤ 15) ∧
      (get_recommendation x = "CAUTION" ↔ -15 < x ∧ x ≤ 0) ∧
      (get_recommendation x = "AVOID" ↔ x ≤ -15)) ∧
    get_recommendation 75 = "BUY" ∧
    get_recommendation 40 = "CONSIDER BUYING" ∧
    get_recommendation 15 = "HOLD" ∧
    get_recommendation 0 = "CAUTION" ∧
    get_recommendation (-15) = "AVOID" := by
  constructor
  · intro x
    unfold get_recommendation
    split_ifs with h1 h2 h3 h4 h5 <;>
      refine ⟨?_, ?_, ?_, ?_, ?_, ?_⟩ <;>
      simp_all <;>
      first
        | linarith
        | (intro h; linarith)
  · refine ⟨?_, ?_, ?_, ?_, ?_⟩ <;> decide

/-- Witness for C3: the band characterization applied at the concrete
input 50, which lies in the BUY band. -/
theorem get_recommendation_bands_witness :
    get_recommendation 50 = "BUY" ↔ 40 < (50 : ℚ) ∧ (50 : ℚ) ≤ 75 :=
  (get_recommendation_bands.1 50).2.1

/-- Claim C4 counterexample: a random-forest candidate of 1320 with retail
price 220 exceeds `retail_price * 5 = 1100`, yet a SignalSource is emitted
for it — the plausibility filter does not apply to every loaded model. -/
theorem ml_plausibility_counterexample :
    predict_with_ml_models ⟨some 1320, none, none, none⟩ 220 =
      [⟨1320, 0.35, 0.93⟩] ∧ (220 : ℚ) * 5 < 1320 := by
  constructor
  · norm_num [predict_with_ml_models]
  · norm_num

/-- Claim C4 (amended): the plausibility filter applies only to the ridge
and linear regression models — their candidate is emitted iff it is
positive and strictly below `retail_price * 5` (so a candidate of exactly
`5 * retail` is excluded and `4.999 * retail` is included for positive
retail) — while random forest and gradient boosting candidates are always
emitted, with price clamped to `max 0 ·`. -/
theorem predict_with_ml_models_plausibility :
    (∀ r retail : ℚ,
      predict_with_ml_models ⟨none, none, some r, none⟩ retail =
        if 0 < r ∧ r < retail * 5 then [⟨r, 0.10, 0.75⟩] else []) ∧
    (∀ r retail : ℚ,
      predict_with_ml_models ⟨none, none, none, some r⟩ retail =
        if 0 < r ∧ r < retail * 5 then [⟨r, 0.05, 0.72⟩] else []) ∧
    (∀ r retail : ℚ,
      predict_with_ml_models ⟨some r, none, none, none⟩ retail =
        [⟨max 0 r, 0.35, 0.93⟩]) ∧
    (∀ r retail : ℚ,
      predict_with_ml_models ⟨none, some r, none, none⟩ retail =
        [⟨max 0 r, 0.30, 0.91⟩]) ∧
    (∀ retail : ℚ, 0 < retail →
      predict_with_ml_models ⟨none, none, some (5 * retail), none⟩ retail =
          [] ∧
      predict_with_ml_models ⟨none, none, some (4.999 * retail), none⟩
          retail = [⟨4.999 * retail, 0.10, 0.75⟩]) := by
  refine ⟨fun r retail => ?_, fun r retail => ?_, fun r retail => rfl,
    fun r retail => rfl, fun retail h => ⟨?_, ?_⟩⟩
  · by_cases hc : 0 < r ∧ r < retail * 5
    · simp [predict_with_ml_models, hc, max_eq_right hc.1.le]
    · simp [predict_with_ml_models, hc]
  · by_cases hc : 0 < r ∧ r < retail * 5
    · simp [predict_with_ml_models, hc, max_eq_right hc.1.le]
    · simp [predict_with_ml_models, hc]
  · simp [predict_with_ml_models]
    intro _
    linarith
  · have hyes : 0 < 4.999 * retail ∧ 4.999 * retail < retail * 5 :=
      ⟨by linarith, by linarith⟩
    simp [predict_with_ml_models, hyes, max_eq_right hyes.1.le]

/-- Witness for C4: the boundary behavior of the ridge filter at the
concrete retail price 220 (candidates 1100 and 1099.78). -/
theorem predict_with_ml_models_plausibility_witness :
    predict_with_ml_models ⟨none, none, some (5 * 220), none⟩ 220 = [] ∧
    predict_with_ml_models ⟨none, none, some (4.999 * 220), none⟩ 220 =
      [⟨4.999 * 220, 0.10, 0.75⟩] :=
  predict_with_ml_models_plausibility.2.2.2.2 220 (by norm_num)

/-- Claim C7 counterexample: the trend-derived factor is clamped to
[0.8, 1.2], not [0.90, 1.10] — with current interest 100, average interest
0 and a rising trend, the factor is 1.2, outside [0.90, 1.10]. -/
theorem trends_adjustment_counterexample :
    get_trends_adjustment 100 0 "rising" = 1.2 ∧
    ¬(get_trends_adjustment 100 0 "rising" ≤ 1.10) := by
  constructor <;> norm_num [get_trends_adjustment]

/-- Claim C7 (amended): the sentiment-derived factor
`1 + sentiment_score * 0.10` lies in [0.85, 1.15] for every sentiment score
in [-1, 1] (the fallback factor 1.0 included), and the trend-derived factor
is clamped by `min(1.2, max(0.8, ·))`, hence always lies in [0.8, 1.2]
(not [0.90, 1.10]) for every interest data and trend direction. -/
theorem adjustment_factor_bounds :
    (∀ s : ℚ, sentiment_score_valid s →
      0.85 ≤ get_sentiment_adjustment s ∧ get_sentiment_adjustment s ≤ 1.15) ∧
    (0.85 ≤ default_sentiment_adjustment ∧
      default_sentiment_adjustment ≤ 1.15) ∧
    (∀ (current_interest avg_interest : ℚ) (trend_direction : String),
      0.8 ≤ get_trends_adjustment current_interest avg_interest
          trend_direction ∧
      get_trends_adjustment current_interest avg_interest trend_direction ≤
        1.2) := by
  refine ⟨fun s hs => ⟨?_, ?_⟩, ⟨by norm_num [default_sentiment_adjustment],
    by norm_num [default_sentiment_adjustment]⟩,
    fun ci ai d => ⟨?_, ?_⟩⟩
  · obtain ⟨h1, h2⟩ := hs
    unfold get_sentiment_adjustment
    linarith
  · obtain ⟨h1, h2⟩ := hs
    unfold get_sentiment_adjustment
    linarith
  · exact le_min (by norm_num) (le_max_left _ _)
  · exact min_le_left _ _

/-- Witness for C7: the sentiment bound applied at the concrete (valid)
sentiment score 0. -/
theorem adjustment_factor_bounds_witness :
    0.85 ≤ get_sentiment_adjustment 0 ∧ get_sentiment_adjustment 0 ≤ 1.15 :=
  adjustment_factor_bounds.1 0 (by norm_num [sentiment_score_valid])

/-- Claim C5: `overall_confidence` always lies in [0.6, 0.95]; with two or
more surviving price sources it equals `clamp(1 - cv, 0.6, 0.95)` written
as `max(0.6, min(0.95, 1 - std/mean))`, and with fewer than two price
sources it is exactly 0.80. -/
theorem overall_confidence_bounds (l : List ℝ) :
    (0.6 ≤ overall_confidence l ∧ overall_confidence l ≤ 0.95) ∧
    (1 < l.length →
      overall_confidence l = max 0.6 (min 0.95 (1 - np_std l / np_mean l))) ∧
    (l.length ≤ 1 → overall_confidence l = 0.80) := by
  refine ⟨?_, fun h => by simp [overall_confidence, h],
    fun h => by simp [overall_confidence, Nat.not_lt.mpr h]⟩
  unfold overall_confidence
  split_ifs with h
  · exact ⟨le_max_left _ _,
      max_le (by norm_num) (le_trans (min_le_left _ _) (by norm_num))⟩
  · norm_num

/-- Witness for C5: both branch hypotheses discharged at concrete lists
([100, 100] with two sources, [100] with one). -/
theorem overall_confidence_bounds_witness :
    overall_confidence [100, 100] =
      max 0.6 (min 0.95 (1 - np_std [100, 100] / np_mean [100, 100])) ∧
    overall_confidence [100] = 0.80 :=
  ⟨(overall_confidence_bounds [100, 100]).2.1 (by norm_num),
   (overall_confidence_bounds [100]).2.2 (by norm_num)⟩

/-- Claim C9 counterexample: a successful history with only 5 historical
observations (< 30) still yields confidence 0.85, not the claimed 0.70 —
the adapter's confidence is the fixed constant 0.85, independent of the
historical sample size. -/
theorem prophet_confidence_counterexample :
    predict_with_prophet "x" ⟨true, [⟨250, 240, 260⟩], 5⟩ =
      some ⟨none, none, some 250, some 240, some 260, 0.85, 0.20, 5⟩ ∧
    (5 : ℕ) < 30 ∧ (0.85 : ℚ) ≠ 0.70 := by
  refine ⟨?_, by norm_num, by norm_num⟩
  simp only [predict_with_prophet, String.reduceEq]
  norm_num

/-- Claim C9 (amended): every prophet result carries the fixed confidence
0.85 and weight 0.20 regardless of the historical sample size, and only the
30-day forecast point is promoted to a price-bearing source — the fused
estimate depends on the prophet result only through `predicted_price_30d`,
`weight` and `confidence`. -/
theorem prophet_signal_source :
    (∀ (name : String) (h : HistoryResult) (p : ProphetPrediction),
      predict_with_prophet name h = some p →
        p.confidence = 0.85 ∧ p.weight = 0.20) ∧
    (∀ (ml : List SignalSource) (p q : ProphetPrediction) (retail : ℚ),
      p.predicted_price_30d = q.predicted_price_30d → p.weight = q.weight →
      p.confidence = q.confidence →
      ensemble_price (all_price_sources ml (some p)) retail =
        ensemble_price (all_price_sources ml (some q)) retail) := by
  constructor
  · intro name h p hp
    by_cases h1 : name = ""
    · simp [predict_with_prophet, h1] at hp
    · by_cases h2 : h.success ∧ h.forecast ≠ []
      · simp [predict_with_prophet, h1, h2] at hp
        subst hp
        exact ⟨rfl, rfl⟩
      · simp [predict_with_prophet, h1, h2] at hp
  · intro ml p q retail h30 hw hc
    have harm :
        prophet_price_source (some p) = prophet_price_source (some q) := by
      simp only [prophet_price_source]
      rw [h30, hw, hc]
    simp [all_price_sources, harm]

/-- Witness for C9: the fixed confidence and weight read off the concrete
prophet result of a one-point forecast history. -/
theorem prophet_signal_source_witness :
    (⟨none, none, some 250, some 240, some 260, 0.85, 0.20,
      5⟩ : ProphetPrediction).confidence = 0.85 ∧
    (⟨none, none, some 250, some 240, some 260, 0.85, 0.20,
      5⟩ : ProphetPrediction).weight = 0.20 :=
  prophet_signal_source.1 "x" ⟨true, [⟨250, 240, 260⟩], 5⟩ _
    (by simp only [predict_with_prophet, String.reduceEq]; norm_num)

/-- Unfolding lemma: the total weight of `s :: ts`. -/
theorem total_weight_cons (s : SignalSource) (ts : List SignalSource) :
    total_weight (s :: ts) = effective_weight s + total_weight ts := by
  simp [total_weight]

/-- Unfolding lemma: the weighted price sum of `s :: ts`. -/
theorem weighted_price_sum_cons (s : SignalSource) (ts : List SignalSource) :
    weighted_price_sum (s :: ts) =
      s.predicted_price * effective_weight s + weighted_price_sum ts := by
  simp [weighted_price_sum]

/-- A non-empty source list whose effective weights are all positive has
positive total weight. -/
theorem total_weight_pos (srcs : List SignalSource) (hne : srcs ≠ [])
    (hw : ∀ p ∈ srcs, 0 < effective_weight p) : 0 < total_weight srcs := by
  induction srcs with
  | nil => exact absurd rfl hne
  | cons s ts ih =>
    rw [total_weight_cons]
    have hs := hw s (List.mem_cons_self _ _)
    rcases eq_or_ne ts [] with h | h
    · subst h
      simpa [total_weight] using hs
    · have := ih h (fun p hp => hw p (List.mem_cons_of_mem _ hp))
      linarith

/-- Upper bound: when every predicted price is at most `hi` and the
effective weights are non-negative, the weighted sum is at most
`hi * total_weight`. -/
theorem weighted_price_sum_le (srcs : List SignalSource) (hi : ℚ)
    (hp : ∀ p ∈ srcs, p.predicted_price ≤ hi)
    (hw : ∀ p ∈ srcs, 0 ≤ effective_weight p) :
    weighted_price_sum srcs ≤ hi * total_weight srcs := by
  induction srcs with
  | nil => simp [weighted_price_sum, total_weight]
  | cons s ts ih =>
    rw [weighted_price_sum_cons, total_weight_cons, mul_add]
    have h1 : s.predicted_price * effective_weight s ≤
        hi * effective_weight s :=
      mul_le_mul_of_nonneg_right (hp s (List.mem_cons_self _ _))
        (hw s (List.mem_cons_self _ _))
    have h2 := ih (fun p h => hp p (List.mem_cons_of_mem _ h))
      (fun p h => hw p (List.mem_cons_of_mem _ h))
    linarith

/-- Lower bound: when every predicted price is at least `lo` and the
effective weights are non-negative, the weighted sum is at least
`lo * total_weight`. -/
theorem le_weighted_price_sum (srcs : List SignalSource) (lo : ℚ)
    (hp : ∀ p ∈ srcs, lo ≤ p.predicted_price)
    (hw : ∀ p ∈ srcs, 0 ≤ effective_weight p) :
    lo * total_weight srcs ≤ weighted_price_sum srcs := by
  induction srcs with
  | nil => simp [weighted_price_sum, total_weight]
  | cons s ts ih =>
    rw [weighted_price_sum_cons, total_weight_cons, mul_add]
    have h1 : lo * effective_weight s ≤
        s.predicted_price * effective_weight s :=
      mul_le_mul_of_nonneg_right (hp s (List.mem_cons_self _ _))
        (hw s (List.mem_cons_self _ _))
    have h2 := ih (fun p h => hp p (List.mem_cons_of_mem _ h))
      (fun p h => hw p (List.mem_cons_of_mem _ h))
    linarith

/-- Claim C8: for every non-empty set of price-bearing sources whose
weights and confidences give positive effective weight, the fused base
estimate lies within [min(prices), max(prices)] (weighted-average
convexity); and a single source with weight = confidence = 1 yields exactly
its own price. -/
theorem ensemble_price_convexity :
    (∀ (srcs : List SignalSource) (retail lo hi : ℚ),
      srcs ≠ [] →
      (∀ p ∈ srcs, 0 < effective_weight p) →
      (srcs.map SignalSource.predicted_price).minimum = (lo : WithTop ℚ) →
      (srcs.map SignalSource.predicted_price).maximum = (hi : WithBot ℚ) →
      lo ≤ ensemble_price srcs retail ∧ ensemble_price srcs retail ≤ hi) ∧
    (∀ price retail : ℚ, ensemble_price [⟨price, 1, 1⟩] retail = price) := by
  constructor
  · intro srcs retail lo hi hne hw hmin hmax
    have htw : 0 < total_weight srcs := total_weight_pos srcs hne hw
    have hlo : ∀ p ∈ srcs, lo ≤ p.predicted_price := fun p hp =>
      List.minimum_le_of_mem (List.mem_map_of_mem _ hp) hmin
    have hhi : ∀ p ∈ srcs, p.predicted_price ≤ hi := fun p hp =>
      List.le_maximum_of_mem (List.mem_map_of_mem _ hp) hmax
    have h1 := le_weighted_price_sum srcs lo hlo (fun p h => (hw p h).le)
    have h2 := weighted_price_sum_le srcs hi hhi (fun p h => (hw p h).le)
    rw [ensemble_price, if_pos htw]
    constructor
    · rw [le_div_iff₀ htw]; linarith
    · rw [div_le_iff₀ htw]; linarith
  · intro price retail
    norm_num [ensemble_price, total_weight, weighted_price_sum,
      effective_weight]

/-- Witness for C8: two unit-weight sources priced 100 and 200; the fused
estimate is bracketed by their minimum and maximum. -/
theorem ensemble_price_convexity_witness :
    (100 : ℚ) ≤ ensemble_price [⟨100, 1, 1⟩, ⟨200, 1, 1⟩] 0 ∧
    ensemble_price [⟨100, 1, 1⟩, ⟨200, 1, 1⟩] 0 ≤ 200 :=
  ensemble_price_convexity.1 [⟨100, 1, 1⟩, ⟨200, 1, 1⟩] 0 100 200
    (by decide)
    (by norm_num [List.forall_mem_cons, effective_weight])
    (by decide) (by decide)

end Driplytics
